import Mathlib

/-!
Verification of the configuration-context module
`analyzer/codechecker_analyzer/analyzer_context.py` of the codechecker
repository.  The Python class `Context` is shallowly embedded below: its
construction pipeline becomes explicit `Except`-valued functions over a
`World` record that holds every external input (environment variables,
JSON file contents, the filesystem predicates and the PATH search).
Machine-level details the module never touches (threads, signals) are out
of scope; the filesystem is modelled by the pure functions the code calls
(`isfile`, `find_executable`, `realpath`) handed in as inputs.
-/

/-- Severity of a log record emitted through `LOG.debug` / `LOG.info` /
`LOG.error`. -/
inductive LogLevel where
  | debug
  | info
  | error
deriving DecidableEq

/-- One emitted log record: its severity and its formatted message. -/
structure LogMsg where
  level : LogLevel
  msg : String
deriving DecidableEq

/-- The ways construction can abort: the Python exceptions `TypeError`,
`ValueError`, `KeyError`, and `SystemExit` raised by `sys.exit`. -/
inductive Fault where
  | typeError (msg : String)
  | valueError (msg : String)
  | keyError (msg : String)
  | exit (code : Nat)
deriving DecidableEq

/-- Number of error-level records in a log. -/
def errorCount (logs : List LogMsg) : Nat :=
  (logs.filter (fun m => m.level == LogLevel.error)).length

/-- `str.split(sep)` of Python for a one-character separator: splits the
string at every occurrence of `sep`, keeping empty pieces. -/
def splitOnCharGo (sep : Char) : List Char → List (List Char)
  | [] => [[]]
  | c :: rest =>
    match splitOnCharGo sep rest with
    | [] => [[]]
    | cur :: done =>
      if c = sep then [] :: cur :: done else (c :: cur) :: done

/-- String-level wrapper of `splitOnCharGo`. -/
def splitOnChar (sep : Char) (s : String) : List String :=
  (splitOnCharGo sep s.toList).map String.mk

/-- `posixpath.dirname`: everything before the final slash; a head of
slashes only is kept, otherwise trailing slashes are stripped; the empty
string when there is no slash. -/
def dirname (p : String) : String :=
  let head := (p.toList.reverse.dropWhile (fun c => c ≠ '/')).reverse
  if head.isEmpty then ""
  else if head.all (fun c => c = '/') then String.mk head
  else String.mk ((head.reverse.dropWhile (fun c => c = '/')).reverse)

/-- `posixpath.basename`: everything after the final slash (the whole
string when there is no slash). -/
def basename (p : String) : String :=
  String.mk (p.toList.foldl (fun acc c => if c = '/' then [] else acc ++ [c]) [])

/-- `posixpath.join` for two components: an absolute second component
replaces the first, otherwise the parts are glued with a single slash. -/
def joinPath (a b : String) : String :=
  if b.toList.head? = some '/' then b
  else if a = "" ∨ a.endsWith "/" then a ++ b
  else a ++ "/" ++ b

/-- `str.endswith` on a one-piece pattern, via the character lists. -/
def str_ends_with (s pat : String) : Bool :=
  List.isSuffixOf pat.toList s.toList

/-- Lookup in a Python-dict-like association list (first match wins; the
construction below keeps keys unique, as a JSON object or dict does). -/
def alookup : List (String × String) → String → Option String
  | [], _ => none
  | (k, v) :: rest, key => if k = key then some v else alookup rest key

/-- Python dict assignment `d[k] = v`: replace the value in place when the
key exists, append the pair otherwise. -/
def setEntry : List (String × String) → String → String → List (String × String)
  | [], k, v => [(k, v)]
  | (k', v') :: rest, k, v =>
    if k' = k then (k, v) :: rest else (k', v') :: setEntry rest k v

theorem alookup_setEntry_self (m : List (String × String)) (k v : String) :
    alookup (setEntry m k v) k = some v := by
  induction m with
  | nil => simp [setEntry, alookup]
  | cons hd tl ih =>
    obtain ⟨k', v'⟩ := hd
    by_cases h : k' = k <;> simp [setEntry, alookup, h, ih]

theorem alookup_setEntry_ne (m : List (String × String)) (k v key : String)
    (h : k ≠ key) : alookup (setEntry m k v) key = alookup m key := by
  induction m with
  | nil => simp [setEntry, alookup, h]
  | cons hd tl ih =>
    obtain ⟨k', v'⟩ := hd
    by_cases h2 : k' = k
    · subst h2; simp [setEntry, alookup, h]
    · simp [setEntry, alookup, h2, ih]

/-- The extended analyzer environment computed by the external helper
`env.extend`: whether `CC_ANALYZER_BIN` is present in it (with its value),
and the `PATH` entry it always carries. -/
structure AnalyzerEnv where
  cc_analyzer_bin : Option String
  path : String
deriving DecidableEq

/-- Message of the Python `TypeError` raised by the membership test
`'CC_ANALYZER_BIN' in None`. -/
def noneMembershipMsg : String :=
  "argument of type \x27NoneType\x27 is not iterable"

/-- The usage hint logged before exiting when some override entry failed;
the adjacent string literals of the source glue "the" and "format"
together, which is reproduced verbatim. -/
def usageHint : String :=
  "The value of CC_ANALYZER_BIN should be in theformat of CC_ANALYZER_BIN=\x27<analyzer1>:/path/to/bin1;<analyzer2>:/path/to/bin2\x27"

/-- Modelled from the spec: `codechecker_analyzer.arg.analyzer_binary` is
not under `src/`.  The spec describes the override value as
semicolon-separated `<analyzer-name>:<path>` entries, a malformed entry
raising an argument-type error; an entry is well formed exactly when a
colon splits it into one name and one path. -/
def analyzer_binary (value : String) : Except String (String × String) :=
  match splitOnChar ':' value with
  | [analyzer_name, path] => Except.ok (analyzer_name, path)
  | _ => Except.error
      ("Analyzer binary should be given in the format <analyzer>:<path> instead of " ++ value)

/-- Loop state of `Context.__parse_CC_ANALYZER_BIN`: the sticky
`had_error` flag, the log records emitted so far and the accepted
`env_var_bins` mapping. -/
structure ParseState where
  had_error : Bool
  logs : List LogMsg
  bins : List (String × String)
deriving DecidableEq

/-- Body of the `for value in ...split(';')` loop of
`Context.__parse_CC_ANALYZER_BIN`: parse the entry (log and flag on a
malformed one), log and flag a path that is not a file, and accept the
entry only when the sticky flag is still unset. -/
def parse_step (isfile : String → Bool) (st : ParseState) (value : String) :
    ParseState :=
  match analyzer_binary value with
  | Except.error e =>
    { st with had_error := true, logs := st.logs ++ [⟨LogLevel.error, e⟩] }
  | Except.ok (analyzer_name, path) =>
    let st' :=
      if isfile path then st
      else
        { st with had_error := true,
                  logs := st.logs ++ [⟨LogLevel.error,
                    "\x27" ++ path ++
                      "\x27 is not a path to an analyzer binary given to CC_ANALYZER_BIN!"⟩] }
    if st'.had_error then st'
    else
      { st' with
        logs := st'.logs ++ [⟨LogLevel.info,
          "Using \x27" ++ path ++ "\x27 for analyzer \x27" ++ analyzer_name ++ "\x27"⟩],
        bins := setEntry st'.bins analyzer_name path }

/-- The whole entry loop of `Context.__parse_CC_ANALYZER_BIN` run over a
`CC_ANALYZER_BIN` value. -/
def parse_scan (isfile : String → Bool) (s : String) : ParseState :=
  (splitOnChar ';' s).foldl (parse_step isfile) ⟨false, [], []⟩

/-- `Context.__parse_CC_ANALYZER_BIN`: the membership test on the cached
extended environment (a `TypeError` when that cache is `None`), then the
entry loop, then `sys.exit(1)` after the usage hint when any entry
failed.  Returns the emitted log records next to the outcome. -/
def parse_CC_ANALYZER_BIN (isfile : String → Bool)
    (analyzer_env : Option AnalyzerEnv) :
    List LogMsg × Except Fault (List (String × String)) :=
  match analyzer_env with
  | none => ([], Except.error (Fault.typeError noneMembershipMsg))
  | some aenv =>
    match aenv.cc_analyzer_bin with
    | none => ([], Except.ok [])
    | some s =>
      let st := parse_scan isfile s
      if st.had_error then
        (st.logs ++ [⟨LogLevel.info, usageHint⟩], Except.error (Fault.exit 1))
      else (st.logs, Except.ok st.bins)

/-- The filesystem of the worked example of the spec: only
`/usr/bin/clang` exists. -/
def fsEx : String → Bool := fun p => decide (p = "/usr/bin/clang")

/-- Modelled from the spec: the named severity levels of the external
logging facility (`codechecker_common.logger` is not under `src/`), with
their numeric values; the spec names a debug-analyzer level sitting
between the standard debug and info levels. -/
inductive LogLevelNamed where
  | debug
  | debug_analyzer
  | info
  | warning
  | error
deriving DecidableEq

/-- Numeric value of a named logger level (`logger.DEBUG = 10`,
`logger.DEBUG_ANALYZER = 15`, then the standard ladder). -/
def LogLevelNamed.toNat : LogLevelNamed → Nat
  | .debug => 10
  | .debug_analyzer => 15
  | .info => 20
  | .warning => 30
  | .error => 40

/-- The structured `version` object of the version JSON file. -/
structure VersionCore where
  major : String
  minor : String
  revision : String
  rc : Option String
deriving DecidableEq

/-- The optional `git_describe` block of the version JSON file. -/
structure GitDescribe where
  tag : Option String
  dirty : Option String
deriving DecidableEq

/-- Contents of `config/analyzer_version.json` after a successful load. -/
structure VersionData where
  version : VersionCore
  package_build_date : String
  git_hash : Option String
  git_describe : Option GitDescribe
deriving DecidableEq

/-- The `environment_variables` object of the general package
configuration: each role key may be present or missing. -/
structure EnvVars where
  cc_logger_bin : Option String
  cc_logger_file : Option String
  cc_logger_compiles : Option String
  ld_preload : Option String
  env_ld_lib_path : Option String
deriving DecidableEq

/-- The general package configuration JSON (`config.json`). -/
structure ConfigRaw where
  environment_variables : Option EnvVars
deriving DecidableEq

/-- The `runtime` object of the package layout JSON. -/
structure LayoutRuntime where
  analyzers : List (String × String)
  clang_apply_replacements : Option String
  path_env_extra : Option (List String)
  ld_lib_path_extra : Option (List String)
deriving DecidableEq

/-- The package layout JSON (`package_layout.json`). -/
structure LayoutRaw where
  runtime : Option LayoutRuntime
deriving DecidableEq

/-- Every external input `Context.__init__` consumes: the data-files root,
the three JSON loads (`none` stands for a file that is missing or loads
empty/falsy), the effective logger level, the PATH-discovery mode flag,
the extended environment `env.extend` would return, and the filesystem
and PATH-search helpers. -/
structure World where
  data_files_dir : String
  config_json : Option ConfigRaw
  layout_json : Option LayoutRaw
  version_json : Option VersionData
  effective_log_level : LogLevelNamed
  is_analyzer_from_path : Bool
  base_env : AnalyzerEnv
  isfile : String → Bool
  find_executable : String → Option String → Option String
  realpath : String → String

/-- `os.path.join(data_files_dir, "config", "config.json")`. -/
def config_file_path (w : World) : String :=
  joinPath (joinPath w.data_files_dir "config") "config.json"

/-- `os.path.join(data_files_dir, "config", "package_layout.json")`. -/
def layout_file_path (w : World) : String :=
  joinPath (joinPath w.data_files_dir "config") "package_layout.json"

/-- The `ValueError` message of `Context.__get_package_config`. -/
def configMissingMsg (w : World) : String :=
  "No configuration file \x27" ++ config_file_path w ++ "\x27 can be found or it is empty!"

/-- The `ValueError` message of `Context.__get_package_layout`. -/
def layoutMissingMsg (w : World) : String :=
  "No configuration file \x27" ++ layout_file_path w ++ "\x27 can be found or it is empty!"

/-- `Context.__get_package_config`: a missing or empty `config.json`
raises a `ValueError` naming the file. -/
def get_package_config (w : World) : Except Fault ConfigRaw :=
  match w.config_json with
  | none => Except.error (Fault.valueError (configMissingMsg w))
  | some c => Except.ok c

/-- `Context.__get_package_layout`: a missing or empty
`package_layout.json` raises a `ValueError` naming the file. -/
def get_package_layout (w : World) : Except Fault LayoutRaw :=
  match w.layout_json with
  | none => Except.error (Fault.valueError (layoutMissingMsg w))
  | some l => Except.ok l

/-- `Context.__init_env`: looking up each role name in the
`environment_variables` mapping raises a `KeyError` when the role is
missing (the `os.environ.get` reads themselves never fail). -/
def init_env (ev : EnvVars) : Except Fault Unit :=
  match ev.cc_logger_bin with
  | none => Except.error (Fault.keyError "cc_logger_bin")
  | some _ =>
  match ev.cc_logger_file with
  | none => Except.error (Fault.keyError "cc_logger_file")
  | some _ =>
  match ev.cc_logger_compiles with
  | none => Except.error (Fault.keyError "cc_logger_compiles")
  | some _ =>
  match ev.ld_preload with
  | none => Except.error (Fault.keyError "ld_preload")
  | some _ =>
  match ev.env_ld_lib_path with
  | none => Except.error (Fault.keyError "env_ld_lib_path")
  | some _ => Except.ok ()

/-- The externally visible version string computed by
`Context.__set_version`: `major + '.' + minor + '.' + revision` plus
`-rc` and the rc value when the `rc` key is present and truthy. -/
def version_string (v : VersionCore) : String :=
  v.major ++ "." ++ v.minor ++ "." ++ v.revision ++
    (match v.rc with
     | some r => if r = "" then "" else "-rc" ++ r
     | none => "")

/-- The externally visible git tag computed by `Context.__set_version`:
the clean tag, overwritten by the dirty tag when the effective logger
level equals `DEBUG` or equals `DEBUG_ANALYZER`. -/
def package_git_tag_of (lvl : LogLevelNamed) (vd : VersionData) : Option String :=
  let tag := vd.git_describe.bind (fun g => g.tag)
  let dirty := vd.git_describe.bind (fun g => g.dirty)
  if lvl.toNat = LogLevelNamed.debug.toNat ∨
      lvl.toNat = LogLevelNamed.debug_analyzer.toNat then dirty
  else tag

/-- The values `Context.__set_version` stores on success. -/
structure VersionResolved where
  version : String
  build_date : String
  git_hash : Option String
  git_tag : Option String
deriving DecidableEq

/-- `Context.__set_version`: a version file that is missing or loads
empty triggers a bare `sys.exit(1)`; otherwise the version string, build
date, git hash and git tag are resolved. -/
def set_version (w : World) : Except Fault VersionResolved :=
  match w.version_json with
  | none => Except.error (Fault.exit 1)
  | some vd =>
    Except.ok { version := version_string vd.version,
                build_date := vd.package_build_date,
                git_hash := vd.git_hash,
                git_tag := package_git_tag_of w.effective_log_level vd }

/-- Accumulator of the analyzer-resolution loop of
`Context.__populate_analyzers`: emitted log records and the growing
`__analyzers` mapping. -/
structure PopAcc where
  logs : List LogMsg
  analyzers : List (String × String)
deriving DecidableEq

/-- Body of the `for name, value in compiler_binaries.items()` loop of
`Context.__populate_analyzers`: an override entry wins; otherwise in
PATH mode the value is stripped to its filename; a value with a
directory component is joined to the data-files root; a bare name is
searched on the (possibly extended) PATH, skipped with a debug log when
absent, canonicalized through `realpath` when found, keeping the located
path instead when the real path ends in `/ccache`. -/
def resolve_one (w : World) (env_var_bin : List (String × String))
    (acc : PopAcc) (nv : String × String) : PopAcc :=
  match alookup env_var_bin nv.1 with
  | some p => { acc with analyzers := setEntry acc.analyzers nv.1 p }
  | none =>
    let value := if w.is_analyzer_from_path then basename nv.2 else nv.2
    if dirname value ≠ "" then
      { acc with analyzers :=
          setEntry acc.analyzers nv.1 (joinPath w.data_files_dir value) }
    else
      let env_path : Option String :=
        if w.is_analyzer_from_path then none else some w.base_env.path
      match w.find_executable value env_path with
      | none =>
        { acc with logs := acc.logs ++ [⟨LogLevel.debug,
            "\x27" ++ value ++ "\x27 binary can not be found in your PATH!"⟩] }
      | some compiler_binary =>
        let stored :=
          if str_ends_with (w.realpath compiler_binary) "/ccache" then
            compiler_binary
          else w.realpath compiler_binary
        { acc with analyzers := setEntry acc.analyzers nv.1 stored }

/-- The value `resolve_one` stores for one layout entry (`none` when the
entry is skipped); the loop body factors through it. -/
def resolve_value (w : World) (env_var_bin : List (String × String))
    (name value : String) : Option String :=
  match alookup env_var_bin name with
  | some p => some p
  | none =>
    let v := if w.is_analyzer_from_path then basename value else value
    if dirname v ≠ "" then some (joinPath w.data_files_dir v)
    else
      match w.find_executable v
          (if w.is_analyzer_from_path then none else some w.base_env.path) with
      | none => none
      | some compiler_binary =>
        some (if str_ends_with (w.realpath compiler_binary) "/ccache" then
                compiler_binary
              else w.realpath compiler_binary)

/-- `Context.__populate_analyzers`: the extended environment is cached
only outside PATH mode (`None` inside it), the override variable is
parsed against that cache, and each layout entry is resolved in turn. -/
def populate_analyzers (w : World) (layout_analyzers : List (String × String)) :
    List LogMsg × Except Fault (List (String × String)) :=
  let analyzer_env : Option AnalyzerEnv :=
    if w.is_analyzer_from_path then none else some w.base_env
  match parse_CC_ANALYZER_BIN w.isfile analyzer_env with
  | (plogs, Except.error f) => (plogs, Except.error f)
  | (plogs, Except.ok env_var_bin) =>
    let r := layout_analyzers.foldl (resolve_one w env_var_bin) ⟨plogs, []⟩
    (r.logs, Except.ok r.analyzers)

/-- `Context.__populate_replacer`: a missing layout entry makes
`os.path.dirname(None)` raise a `TypeError`; a value with a directory
component is joined to the data-files root; a bare name is searched on
the default process PATH, storing `find_executable`'s result as is. -/
def populate_replacer (w : World) (rt : LayoutRuntime) :
    Except Fault (Option String) :=
  match rt.clang_apply_replacements with
  | none => Except.error
      (Fault.typeError "expected str, bytes or os.PathLike object, not NoneType")
  | some replacer_binary =>
    if dirname replacer_binary ≠ "" then
      Except.ok (some (joinPath w.data_files_dir replacer_binary))
    else
      Except.ok (w.find_executable replacer_binary none)

/-- The `path_env_extra` accessor: the empty list in PATH mode, otherwise
each configured fragment joined to the data-files root. -/
def path_env_extra (from_path : Bool) (rt : LayoutRuntime) (data : String) :
    List String :=
  if from_path then []
  else (rt.path_env_extra.getD []).map (fun p => joinPath data p)

/-- The `ld_lib_path_extra` accessor: the empty list in PATH mode,
otherwise each configured fragment joined to the data-files root. -/
def ld_lib_path_extra (from_path : Bool) (rt : LayoutRuntime) (data : String) :
    List String :=
  if from_path then []
  else (rt.ld_lib_path_extra.getD []).map (fun p => joinPath data p)

/-- The fully constructed context: the data `Context.__init__` leaves
behind when it completes, together with the log records it emitted. -/
structure Ctx where
  version : String
  package_build_date : String
  package_git_hash : Option String
  package_git_tag : Option String
  analyzer_binaries : List (String × String)
  replacer_binary : Option String
  logs : List LogMsg
deriving DecidableEq

/-- `Context.__init__` as one pipeline, in the order of the source:
config load, `environment_variables` key, layout load, `runtime` key,
`__init_env`, `__set_version`, `__populate_analyzers`,
`__populate_replacer`. -/
def construct_context (w : World) : Except Fault Ctx :=
  match get_package_config w with
  | Except.error f => Except.error f
  | Except.ok cfg =>
    match cfg.environment_variables with
    | none => Except.error (Fault.keyError "environment_variables")
    | some ev =>
      match get_package_layout w with
      | Except.error f => Except.error f
      | Except.ok lay =>
        match lay.runtime with
        | none => Except.error (Fault.keyError "runtime")
        | some rt =>
          match init_env ev with
          | Except.error f => Except.error f
          | Except.ok _ =>
            match set_version w with
            | Except.error f => Except.error f
            | Except.ok vr =>
              match populate_analyzers w rt.analyzers with
              | (_, Except.error f) => Except.error f
              | (logs, Except.ok m) =>
                match populate_replacer w rt with
                | Except.error f => Except.error f
                | Except.ok repl =>
                  Except.ok { version := vr.version,
                              package_build_date := vr.build_date,
                              package_git_hash := vr.git_hash,
                              package_git_tag := vr.git_tag,
                              analyzer_binaries := m,
                              replacer_binary := repl,
                              logs := logs }

/-- Observable outcome of the top-level `get_context` accessor. -/
inductive GetContextResult where
  | ok (c : Ctx)
  | exitAfterLog (message : String) (code : Nat)
  | exitAfterTraceback (code : Nat)
  | exit (code : Nat)
  | uncaught (f : Fault)
deriving DecidableEq

/-- `get_context`: a `KeyError` is caught (stack trace, exit 1), a
`ValueError` is caught (logged, exit 1), a `SystemExit` propagates and
ends the process with its code, and any other fault propagates
unhandled. -/
def get_context_run (w : World) : GetContextResult :=
  match construct_context w with
  | Except.ok c => GetContextResult.ok c
  | Except.error (Fault.keyError _) => GetContextResult.exitAfterTraceback 1
  | Except.error (Fault.valueError m) => GetContextResult.exitAfterLog m 1
  | Except.error (Fault.exit c) => GetContextResult.exit c
  | Except.error f => GetContextResult.uncaught f

theorem resolve_one_analyzers (w : World) (evb : List (String × String))
    (acc : PopAcc) (nv : String × String) :
    (resolve_one w evb acc nv).analyzers =
      match resolve_value w evb nv.1 nv.2 with
      | some p => setEntry acc.analyzers nv.1 p
      | none => acc.analyzers := by
  obtain ⟨name, value⟩ := nv
  simp only [resolve_one, resolve_value]
  cases alookup evb name with
  | some p => rfl
  | none =>
    simp only
    by_cases hd : dirname (if w.is_analyzer_from_path then basename value else value) ≠ ""
    · simp [hd]
    · simp only [hd, if_neg, ite_false]
      cases w.find_executable (if w.is_analyzer_from_path then basename value else value)
          (if w.is_analyzer_from_path then none else some w.base_env.path) with
      | none => simp [hd]
      | some cb => simp [hd]

theorem resolve_one_alookup_ne (w : World) (evb : List (String × String))
    (acc : PopAcc) (n v name : String) (h : n ≠ name) :
    alookup (resolve_one w evb acc (n, v)).analyzers name =
      alookup acc.analyzers name := by
  rw [resolve_one_analyzers]
  cases resolve_value w evb n v with
  | none => rfl
  | some p => exact alookup_setEntry_ne _ _ _ _ h

theorem foldl_resolve_notmem (w : World) (evb : List (String × String))
    (l : List (String × String)) (acc : PopAcc) (name : String)
    (h : name ∉ l.map Prod.fst) :
    alookup ((l.foldl (resolve_one w evb) acc).analyzers) name =
      alookup acc.analyzers name := by
  induction l generalizing acc with
  | nil => rfl
  | cons hd tl ih =>
    obtain ⟨n, v⟩ := hd
    simp only [List.map_cons, List.mem_cons, not_or] at h
    rw [List.foldl_cons, ih _ h.2, resolve_one_alookup_ne _ _ _ _ _ _ (Ne.symm h.1)]

theorem foldl_resolve_mem (w : World) (evb : List (String × String))
    (l : List (String × String)) (acc : PopAcc) (name value : String)
    (hnd : (l.map Prod.fst).Nodup) (hmem : (name, value) ∈ l) :
    alookup ((l.foldl (resolve_one w evb) acc).analyzers) name =
      match resolve_value w evb name value with
      | some p => some p
      | none => alookup acc.analyzers name := by
  induction l generalizing acc with
  | nil => cases hmem
  | cons hd tl ih =>
    obtain ⟨n, v⟩ := hd
    rw [List.foldl_cons]
    rw [List.map_cons] at hnd
    have hnd' := List.nodup_cons.mp hnd
    rcases List.mem_cons.mp hmem with heq | hmemtl
    · injection heq with hn hv
      subst hn; subst hv
      rw [foldl_resolve_notmem _ _ _ _ _ hnd'.1, resolve_one_analyzers]
      rcases h : resolve_value w evb name value with _ | p
      · simp [h]
      · simp [h, alookup_setEntry_self]
    · have hne : n ≠ name := by
        intro hcontra
        subst hcontra
        exact hnd'.1 (List.mem_map.mpr ⟨(n, value), hmemtl, rfl⟩)
      rw [ih _ hnd'.2 hmemtl]
      cases resolve_value w evb name value with
      | none => simp only; exact resolve_one_alookup_ne _ _ _ _ _ _ hne
      | some p => rfl

theorem populate_analyzers_lookup (w : World)
    (layout : List (String × String)) (plogs : List LogMsg)
    (evb : List (String × String)) (name value : String)
    (hfp : w.is_analyzer_from_path = false)
    (hparse : parse_CC_ANALYZER_BIN w.isfile (some w.base_env) =
      (plogs, Except.ok evb))
    (hnd : (layout.map Prod.fst).Nodup)
    (hmem : (name, value) ∈ layout) :
    ∃ logs m, populate_analyzers w layout = (logs, Except.ok m) ∧
      alookup m name = resolve_value w evb name value := by
  unfold populate_analyzers
  rw [hfp]
  simp only [Bool.false_eq_true, if_false, hparse]
  refine ⟨_, _, rfl, ?_⟩
  rw [foldl_resolve_mem w evb layout ⟨plogs, []⟩ name value hnd hmem]
  cases resolve_value w evb name value with
  | none => rfl
  | some p => rfl

theorem populate_from_path (w : World) (layout : List (String × String))
    (h : w.is_analyzer_from_path = true) :
    populate_analyzers w layout =
      ([], Except.error (Fault.typeError noneMembershipMsg)) := by
  unfold populate_analyzers
  rw [h]
  rfl

/-- C1, counterexample: in
`CC_ANALYZER_BIN="cppcheck:/bad/path;clang:/usr/bin/clang"` the second
entry is well formed and its path is an existing file, yet after the
first entry failed the sticky error flag makes the loop skip it, so it is
never accepted into the override mapping — later entries are not
"accepted on their own merits" as the claim states. -/
theorem c1_counterexample :
    analyzer_binary "clang:/usr/bin/clang" =
      Except.ok ("clang", "/usr/bin/clang") ∧
    fsEx "/usr/bin/clang" = true ∧
    (parse_scan fsEx "cppcheck:/bad/path;clang:/usr/bin/clang").bins = [] ∧
    errorCount (parse_scan fsEx "cppcheck:/bad/path;clang:/usr/bin/clang").logs = 1 :=
  ⟨rfl, rfl, rfl, rfl⟩

/-- C1 (amended): every entry is still parsed after a failure and each
bad entry is logged as an error, but once any entry has failed no later
entry is accepted into the mapping; whenever any entry failed the parse
logs the usage hint and exits with status 1.  For
`CC_ANALYZER_BIN="clang:/usr/bin/clang;cppcheck:/bad/path"` with
`/bad/path` absent, exactly one error is logged, the first entry is the
only accepted one, and the process exits non-zero. -/
theorem c1_analyzer_bin_override (s : String)
    (h : (parse_scan fsEx s).had_error = true) :
    parse_CC_ANALYZER_BIN fsEx (some { cc_analyzer_bin := some s, path := "" }) =
      ((parse_scan fsEx s).logs ++ [⟨LogLevel.info, usageHint⟩],
        Except.error (Fault.exit 1)) ∧
    errorCount (parse_scan fsEx "nocolon;cppcheck:/bad/path").logs = 2 ∧
    errorCount (parse_scan fsEx "clang:/usr/bin/clang;cppcheck:/bad/path").logs = 1 ∧
    (parse_scan fsEx "clang:/usr/bin/clang;cppcheck:/bad/path").bins =
      [("clang", "/usr/bin/clang")] := by
  refine ⟨?_, rfl, rfl, rfl⟩
  simp [parse_CC_ANALYZER_BIN, h]

/-- C1, witness: the worked example of the claim satisfies the error
hypothesis of the amended theorem. -/
theorem c1_analyzer_bin_override_witness :
    (parse_scan fsEx "clang:/usr/bin/clang;cppcheck:/bad/path").had_error = true ∧
    (parse_CC_ANALYZER_BIN fsEx
        (some { cc_analyzer_bin := some "clang:/usr/bin/clang;cppcheck:/bad/path",
                path := "" }) =
      ((parse_scan fsEx "clang:/usr/bin/clang;cppcheck:/bad/path").logs ++
          [⟨LogLevel.info, usageHint⟩],
        Except.error (Fault.exit 1)) ∧
    errorCount (parse_scan fsEx "nocolon;cppcheck:/bad/path").logs = 2 ∧
    errorCount (parse_scan fsEx "clang:/usr/bin/clang;cppcheck:/bad/path").logs = 1 ∧
    (parse_scan fsEx "clang:/usr/bin/clang;cppcheck:/bad/path").bins =
      [("clang", "/usr/bin/clang")]) :=
  ⟨rfl, c1_analyzer_bin_override _ rfl⟩

/-- C3: over the named logger severities, the tag stored by
`Context.__set_version` is the dirty variant exactly for the levels at or
below the debug-analyzer threshold and the clean tag above it. -/
theorem c3_git_tag_debug_threshold (lvl : LogLevelNamed) (vd : VersionData) :
    package_git_tag_of lvl vd =
      if lvl.toNat ≤ LogLevelNamed.debug_analyzer.toNat then
        vd.git_describe.bind (fun g => g.dirty)
      else
        vd.git_describe.bind (fun g => g.tag) := by
  cases lvl <;> rfl

/-- C7: with PATH-based analyzer discovery active, both extra-path
accessors return the empty list whatever the layout file contains. -/
theorem c7_path_mode_empty_extras (rt : LayoutRuntime) (data : String) :
    path_env_extra true rt data = [] ∧ ld_lib_path_extra true rt data = [] :=
  ⟨rfl, rfl⟩

/-- C8: the version accessor yields `major.minor.revision`, with `-rc`
and the rc value appended exactly when a non-empty `rc` field is present;
in particular `6.12.0` without rc and `6.12.0-rc1` with `rc="1"`. -/
theorem c8_version_format (v : VersionCore) :
    (∀ r, v.rc = some r → r ≠ "" →
      version_string v =
        v.major ++ "." ++ v.minor ++ "." ++ v.revision ++ "-rc" ++ r) ∧
    (v.rc = none ∨ v.rc = some "" →
      version_string v = v.major ++ "." ++ v.minor ++ "." ++ v.revision) ∧
    version_string ⟨"6", "12", "0", none⟩ = "6.12.0" ∧
    version_string ⟨"6", "12", "0", some "1"⟩ = "6.12.0-rc1" := by
  refine ⟨?_, ?_, rfl, rfl⟩
  · intro r hr hne
    simp [version_string, hr, hne, String.append_assoc]
  · rintro (hr | hr) <;> simp [version_string, hr]

/-- C8, witness: the rc example discharges the hypotheses of the general
format statement. -/
theorem c8_version_format_witness :
    (⟨"6", "12", "0", some "1"⟩ : VersionCore).rc = some "1" ∧
    ("1" : String) ≠ "" ∧
    version_string ⟨"6", "12", "0", some "1"⟩ =
      "6" ++ "." ++ "12" ++ "." ++ "0" ++ "-rc" ++ "1" :=
  ⟨rfl, by decide, (c8_version_format _).1 "1" rfl (by decide)⟩

/-- C4: for a bare layout value located on the PATH whose
symlink-resolved real path ends in `/ccache`, the mapping stores the
originally located pre-resolution path, not the ccache target. -/
theorem c4_ccache_pre_resolution (w : World) (layout : List (String × String))
    (plogs : List LogMsg) (evb : List (String × String))
    (name value cb : String)
    (hfp : w.is_analyzer_from_path = false)
    (hparse : parse_CC_ANALYZER_BIN w.isfile (some w.base_env) =
      (plogs, Except.ok evb))
    (hnd : (layout.map Prod.fst).Nodup)
    (hmem : (name, value) ∈ layout)
    (hov : alookup evb name = none)
    (hdir : dirname value = "")
    (hfind : w.find_executable value (some w.base_env.path) = some cb)
    (hcc : str_ends_with (w.realpath cb) "/ccache" = true) :
    ∃ logs m, populate_analyzers w layout = (logs, Except.ok m) ∧
      alookup m name = some cb := by
  obtain ⟨logs, m, hpop, hl⟩ :=
    populate_analyzers_lookup w layout plogs evb name value hfp hparse hnd hmem
  refine ⟨logs, m, hpop, ?_⟩
  rw [hl]
  simp [resolve_value, hov, hfp, hdir, hfind, hcc]

/-- Concrete world for the resolution witnesses: `gcc` is found at
`/usr/bin/gcc`, whose real path is the ccache wrapper; nothing else is on
the PATH; no override variable is set. -/
def w0 : World where
  data_files_dir := "/data"
  config_json := none
  layout_json := none
  version_json := none
  effective_log_level := LogLevelNamed.info
  is_analyzer_from_path := false
  base_env := { cc_analyzer_bin := none, path := "/usr/local/bin:/usr/bin" }
  isfile := fun _ => false
  find_executable := fun v _ => if v = "gcc" then some "/usr/bin/gcc" else none
  realpath := fun p => if p = "/usr/bin/gcc" then "/usr/lib/ccache/bin/ccache" else p

/-- C4, witness: the example of the claim — located `/usr/bin/gcc`, real
path `/usr/lib/ccache/bin/ccache`, stored `/usr/bin/gcc`. -/
theorem c4_ccache_pre_resolution_witness :
    w0.is_analyzer_from_path = false ∧
    parse_CC_ANALYZER_BIN w0.isfile (some w0.base_env) = ([], Except.ok []) ∧
    (([("gcc", "gcc")].map Prod.fst).Nodup ∧ ("gcc", "gcc") ∈ [("gcc", "gcc")]) ∧
    alookup [] "gcc" = none ∧
    dirname "gcc" = "" ∧
    w0.find_executable "gcc" (some w0.base_env.path) = some "/usr/bin/gcc" ∧
    str_ends_with (w0.realpath "/usr/bin/gcc") "/ccache" = true ∧
    (∃ logs m, populate_analyzers w0 [("gcc", "gcc")] = (logs, Except.ok m) ∧
      alookup m "gcc" = some "/usr/bin/gcc") :=
  ⟨rfl, rfl, ⟨by decide, by decide⟩, rfl, rfl, rfl, rfl,
    c4_ccache_pre_resolution w0 [("gcc", "gcc")] [] [] "gcc" "gcc" "/usr/bin/gcc"
      rfl rfl (by decide) (by decide) rfl rfl rfl rfl⟩

/-- C5: a layout value with a directory component resolves to the join of
the data-files root and the value, and the stored path is the same for
every PATH-search and realpath function — no existence check or PATH
search takes part. -/
theorem c5_dir_component_join (w : World) (layout : List (String × String))
    (plogs : List LogMsg) (evb : List (String × String)) (name value : String)
    (hfp : w.is_analyzer_from_path = false)
    (hparse : parse_CC_ANALYZER_BIN w.isfile (some w.base_env) =
      (plogs, Except.ok evb))
    (hnd : (layout.map Prod.fst).Nodup)
    (hmem : (name, value) ∈ layout)
    (hov : alookup evb name = none)
    (hdir : dirname value ≠ "") :
    (∃ logs m, populate_analyzers w layout = (logs, Except.ok m) ∧
      alookup m name = some (joinPath w.data_files_dir value)) ∧
    (∀ fe rp, ∃ logs m,
      populate_analyzers { w with find_executable := fe, realpath := rp } layout =
        (logs, Except.ok m) ∧
      alookup m name = some (joinPath w.data_files_dir value)) := by
  constructor
  · obtain ⟨logs, m, hpop, hl⟩ :=
      populate_analyzers_lookup w layout plogs evb name value hfp hparse hnd hmem
    exact ⟨logs, m, hpop, by rw [hl]; simp [resolve_value, hov, hfp, hdir]⟩
  · intro fe rp
    obtain ⟨logs, m, hpop, hl⟩ :=
      populate_analyzers_lookup { w with find_executable := fe, realpath := rp }
        layout plogs evb name value hfp hparse hnd hmem
    exact ⟨logs, m, hpop, by rw [hl]; simp [resolve_value, hov, hfp, hdir]⟩

/-- C5, witness: analyzer `infer` with value `tools/infer` resolves to
`/data/tools/infer` although no such file exists in `w0`. -/
theorem c5_dir_component_join_witness :
    w0.is_analyzer_from_path = false ∧
    parse_CC_ANALYZER_BIN w0.isfile (some w0.base_env) = ([], Except.ok []) ∧
    (([("infer", "tools/infer")].map Prod.fst).Nodup ∧
      ("infer", "tools/infer") ∈ [("infer", "tools/infer")]) ∧
    alookup [] "infer" = none ∧
    dirname "tools/infer" ≠ "" ∧
    ((∃ logs m, populate_analyzers w0 [("infer", "tools/infer")] =
        (logs, Except.ok m) ∧
      alookup m "infer" = some (joinPath w0.data_files_dir "tools/infer")) ∧
    (∀ fe rp, ∃ logs m,
      populate_analyzers { w0 with find_executable := fe, realpath := rp }
          [("infer", "tools/infer")] = (logs, Except.ok m) ∧
      alookup m "infer" = some (joinPath w0.data_files_dir "tools/infer"))) :=
  ⟨rfl, rfl, ⟨by decide, by decide⟩, rfl, by decide,
    c5_dir_component_join w0 [("infer", "tools/infer")] [] [] "infer" "tools/infer"
      rfl rfl (by decide) (by decide) rfl (by decide)⟩

/-- C6: a bare layout value that the PATH search cannot locate is skipped
softly — construction carries on, the name is absent from the resolved
mapping, and processing the entry emits exactly one debug-level record
and nothing else. -/
theorem c6_bare_name_soft_skip (w : World) (layout : List (String × String))
    (plogs : List LogMsg) (evb : List (String × String)) (name value : String)
    (hfp : w.is_analyzer_from_path = false)
    (hparse : parse_CC_ANALYZER_BIN w.isfile (some w.base_env) =
      (plogs, Except.ok evb))
    (hnd : (layout.map Prod.fst).Nodup)
    (hmem : (name, value) ∈ layout)
    (hov : alookup evb name = none)
    (hdir : dirname value = "")
    (hfind : w.find_executable value (some w.base_env.path) = none) :
    (∃ logs m, populate_analyzers w layout = (logs, Except.ok m) ∧
      alookup m name = none) ∧
    (∀ acc, resolve_one w evb acc (name, value) =
      { acc with logs := acc.logs ++ [⟨LogLevel.debug,
          "\x27" ++ value ++ "\x27 binary can not be found in your PATH!"⟩] }) := by
  constructor
  · obtain ⟨logs, m, hpop, hl⟩ :=
      populate_analyzers_lookup w layout plogs evb name value hfp hparse hnd hmem
    exact ⟨logs, m, hpop, by rw [hl]; simp [resolve_value, hov, hfp, hdir, hfind]⟩
  · intro acc
    simp [resolve_one, hov, hfp, hdir, hfind]

/-- C6, witness: `clang-tidy` is not on the PATH of `w0`; the resolved
mapping omits it and only a debug record is emitted. -/
theorem c6_bare_name_soft_skip_witness :
    w0.is_analyzer_from_path = false ∧
    parse_CC_ANALYZER_BIN w0.isfile (some w0.base_env) = ([], Except.ok []) ∧
    (([("clang-tidy", "clang-tidy")].map Prod.fst).Nodup ∧
      ("clang-tidy", "clang-tidy") ∈ [("clang-tidy", "clang-tidy")]) ∧
    alookup [] "clang-tidy" = none ∧
    dirname "clang-tidy" = "" ∧
    w0.find_executable "clang-tidy" (some w0.base_env.path) = none ∧
    ((∃ logs m, populate_analyzers w0 [("clang-tidy", "clang-tidy")] =
        (logs, Except.ok m) ∧
      alookup m "clang-tidy" = none) ∧
    (∀ acc, resolve_one w0 [] acc ("clang-tidy", "clang-tidy") =
      { acc with logs := acc.logs ++ [⟨LogLevel.debug,
          "\x27clang-tidy\x27 binary can not be found in your PATH!"⟩] })) :=
  ⟨rfl, rfl, ⟨by decide, by decide⟩, rfl, rfl, rfl,
    c6_bare_name_soft_skip w0 [("clang-tidy", "clang-tidy")] [] []
      "clang-tidy" "clang-tidy" rfl rfl (by decide) (by decide) rfl rfl rfl⟩

/-- C2: with PATH-based analyzer discovery active the cached extended
environment stays `None`, the override parse performs its membership test
on that `None` and raises a `TypeError`, and since `get_context` catches
only key and value errors, construction never completes normally and the
fault propagates unhandled. -/
theorem c2_path_mode_type_fault (w : World)
    (h : w.is_analyzer_from_path = true) :
    (∀ c, construct_context w ≠ Except.ok c) ∧
    (∀ cfg ev lay rt vd,
      w.config_json = some cfg → cfg.environment_variables = some ev →
      w.layout_json = some lay → lay.runtime = some rt →
      init_env ev = Except.ok () → w.version_json = some vd →
      construct_context w = Except.error (Fault.typeError noneMembershipMsg) ∧
      get_context_run w =
        GetContextResult.uncaught (Fault.typeError noneMembershipMsg)) := by
  have main : ∀ cfg ev lay rt vd,
      w.config_json = some cfg → cfg.environment_variables = some ev →
      w.layout_json = some lay → lay.runtime = some rt →
      init_env ev = Except.ok () → w.version_json = some vd →
      construct_context w = Except.error (Fault.typeError noneMembershipMsg) := by
    intro cfg ev lay rt vd hc he hl hr hi hv
    simp only [construct_context, get_package_config, hc, he,
      get_package_layout, hl, hr, hi, set_version, hv,
      populate_from_path w rt.analyzers h]
  constructor
  · intro c hc
    rcases hcfg : w.config_json with _ | cfg
    · simp [construct_context, get_package_config, hcfg] at hc
    · rcases hev : cfg.environment_variables with _ | ev
      · simp [construct_context, get_package_config, hcfg, hev] at hc
      · rcases hlay : w.layout_json with _ | lay
        · simp [construct_context, get_package_config, get_package_layout,
            hcfg, hev, hlay] at hc
        · rcases hrt : lay.runtime with _ | rt
          · simp [construct_context, get_package_config, get_package_layout,
              hcfg, hev, hlay, hrt] at hc
          · rcases hie : init_env ev with f | u
            · simp [construct_context, get_package_config, get_package_layout,
                hcfg, hev, hlay, hrt, hie] at hc
            · rcases hvd : w.version_json with _ | vd
              · simp [construct_context, get_package_config, get_package_layout,
                  set_version, hcfg, hev, hlay, hrt, hie, hvd] at hc
              · have := main cfg ev lay rt vd hcfg hev hlay hrt
                  (by cases u; exact hie) hvd
                rw [this] at hc
                exact Except.noConfusion hc
  · intro cfg ev lay rt vd hc he hl hr hi hv
    have hcc := main cfg ev lay rt vd hc he hl hr hi hv
    exact ⟨hcc, by simp [get_context_run, hcc]⟩

/-- A world in PATH-discovery mode whose three JSON files all load
correctly — every stage before analyzer population succeeds. -/
def w1 : World where
  data_files_dir := "/data"
  config_json := some (ConfigRaw.mk (some (EnvVars.mk (some "CC_LOGGER_BIN")
    (some "CC_LOGGER_FILE") (some "CC_LOGGER_COMPILES") (some "LD_PRELOAD")
    (some "LD_LIBRARY_PATH"))))
  layout_json := some (LayoutRaw.mk (some (LayoutRuntime.mk
    [("clangsa", "clang")] (some "clang-apply-replacements") none none)))
  version_json := some (VersionData.mk (VersionCore.mk "6" "12" "0" none)
    "2020-01-01" none none)
  effective_log_level := LogLevelNamed.info
  is_analyzer_from_path := true
  base_env := { cc_analyzer_bin := none, path := "" }
  isfile := fun _ => false
  find_executable := fun _ _ => none
  realpath := fun p => p

/-- C2, witness: in `w1` every earlier stage succeeds and construction
still ends in the uncaught type fault. -/
theorem c2_path_mode_type_fault_witness :
    w1.is_analyzer_from_path = true ∧
    construct_context w1 = Except.error (Fault.typeError noneMembershipMsg) ∧
    get_context_run w1 =
      GetContextResult.uncaught (Fault.typeError noneMembershipMsg) :=
  ⟨rfl,
    ((c2_path_mode_type_fault w1 rfl).2 _ _ _ _ _ rfl rfl rfl rfl rfl rfl).1,
    ((c2_path_mode_type_fault w1 rfl).2 _ _ _ _ _ rfl rfl rfl rfl rfl rfl).2⟩

/-- C9: a missing or empty `config.json` or `package_layout.json` raises
a `ValueError` whose message contains that file's path, which
`get_context` converts into a logged message plus exit 1; no context is
ever returned. -/
theorem c9_missing_config_fatal (w : World) :
    (w.config_json = none →
      construct_context w = Except.error (Fault.valueError (configMissingMsg w)) ∧
      (∃ pre post, configMissingMsg w = pre ++ config_file_path w ++ post) ∧
      get_context_run w = GetContextResult.exitAfterLog (configMissingMsg w) 1 ∧
      ∀ c, get_context_run w ≠ GetContextResult.ok c) ∧
    (∀ cfg ev, w.config_json = some cfg → cfg.environment_variables = some ev →
      w.layout_json = none →
      construct_context w = Except.error (Fault.valueError (layoutMissingMsg w)) ∧
      (∃ pre post, layoutMissingMsg w = pre ++ layout_file_path w ++ post) ∧
      get_context_run w = GetContextResult.exitAfterLog (layoutMissingMsg w) 1 ∧
      ∀ c, get_context_run w ≠ GetContextResult.ok c) := by
  constructor
  · intro hc
    have h1 : construct_context w =
        Except.error (Fault.valueError (configMissingMsg w)) := by
      simp [construct_context, get_package_config, hc]
    refine ⟨h1,
      ⟨"No configuration file \x27", "\x27 can be found or it is empty!", rfl⟩,
      by simp [get_context_run, h1], fun c => by simp [get_context_run, h1]⟩
  · intro cfg ev hc he hl
    have h1 : construct_context w =
        Except.error (Fault.valueError (layoutMissingMsg w)) := by
      simp [construct_context, get_package_config, hc, he,
        get_package_layout, hl]
    refine ⟨h1,
      ⟨"No configuration file \x27", "\x27 can be found or it is empty!", rfl⟩,
      by simp [get_context_run, h1], fun c => by simp [get_context_run, h1]⟩

/-- A world whose `config.json` is missing (or loads empty). -/
def w2 : World where
  data_files_dir := "/data"
  config_json := none
  layout_json := none
  version_json := none
  effective_log_level := LogLevelNamed.info
  is_analyzer_from_path := false
  base_env := { cc_analyzer_bin := none, path := "" }
  isfile := fun _ => false
  find_executable := fun _ _ => none
  realpath := fun p => p

/-- C9, witness: the missing-`config.json` world ends in a logged
value-error message naming the config path and a non-zero exit. -/
theorem c9_missing_config_fatal_witness :
    w2.config_json = none ∧
    (construct_context w2 =
        Except.error (Fault.valueError (configMissingMsg w2)) ∧
      (∃ pre post, configMissingMsg w2 = pre ++ config_file_path w2 ++ post) ∧
      get_context_run w2 = GetContextResult.exitAfterLog (configMissingMsg w2) 1 ∧
      ∀ c, get_context_run w2 ≠ GetContextResult.ok c) :=
  ⟨rfl, (c9_missing_config_fatal w2).1 rfl⟩

/-- A world where the replacer tool is found at a path that is a symlink:
`find_executable` locates `/usr/bin/clang-apply-replacements`, whose real
path is `/opt/llvm/bin/clang-apply-replacements`. -/
def c10World : World where
  data_files_dir := "/data"
  config_json := none
  layout_json := none
  version_json := none
  effective_log_level := LogLevelNamed.info
  is_analyzer_from_path := false
  base_env := { cc_analyzer_bin := none, path := "/usr/bin" }
  isfile := fun _ => false
  find_executable := fun v _ =>
    if v = "clang-apply-replacements" then some "/usr/bin/clang-apply-replacements"
    else none
  realpath := fun p =>
    if p = "/usr/bin/clang-apply-replacements" then
      "/opt/llvm/bin/clang-apply-replacements"
    else p

/-- The layout runtime naming the replacer tool by its bare name. -/
def c10Rt : LayoutRuntime where
  analyzers := []
  clang_apply_replacements := some "clang-apply-replacements"
  path_env_extra := none
  ld_lib_path_extra := none

/-- C10, counterexample: on the same bare name the analyzer loop would
canonicalize the located path through `realpath`, but the replacer
resolution stores `find_executable`'s result untouched — the two
bare-name behaviors differ, refuting "behaves the same ... including
canonicalization". -/
theorem c10_counterexample :
    populate_replacer c10World c10Rt =
      Except.ok (some "/usr/bin/clang-apply-replacements") ∧
    resolve_value c10World [] "clang-apply-replacements"
        "clang-apply-replacements" =
      some "/opt/llvm/bin/clang-apply-replacements" ∧
    ("/usr/bin/clang-apply-replacements" : String) ≠
      "/opt/llvm/bin/clang-apply-replacements" :=
  ⟨rfl, rfl, by decide⟩

/-- C10 (amended): the replacer shares only the directory-vs-bare-name
split: a value with a directory component is joined to the data-files
root unverified; a bare name is searched on the default process PATH with
no extended environment and no override, and the search result is stored
as is — without realpath canonicalization, without the ccache special
case, and with the none value stored (rather than the key skipped) when
the search fails. -/
theorem c10_replacer_resolution (w : World) (rt : LayoutRuntime) (rb : String)
    (h : rt.clang_apply_replacements = some rb) :
    (dirname rb ≠ "" →
      populate_replacer w rt = Except.ok (some (joinPath w.data_files_dir rb))) ∧
    (dirname rb = "" →
      populate_replacer w rt = Except.ok (w.find_executable rb none)) := by
  constructor <;> intro hd <;> simp [populate_replacer, h, hd]

/-- C10, witness: the bare-name branch of the amended statement at the
concrete replacer world. -/
theorem c10_replacer_resolution_witness :
    c10Rt.clang_apply_replacements = some "clang-apply-replacements" ∧
    dirname "clang-apply-replacements" = "" ∧
    populate_replacer c10World c10Rt =
      Except.ok (c10World.find_executable "clang-apply-replacements" none) :=
  ⟨rfl, rfl,
    (c10_replacer_resolution c10World c10Rt "clang-apply-replacements" rfl).2 rfl⟩
